import Mathlib

/-!
Verification of the fp-ts-practices repository: a shallow embedding of its
algebraic instances (Eq, Ord, Semigroup, Monoid, Functor, Applicative) and of
the seeded property-run engine described by the spec, with theorems settling
the behavioural claims about them.

TypeScript `number` values appearing in the examples are small integers and are
modelled as `Int`; TS strings are modelled as Lean `String`; TS arrays as
`List`; fp-ts `Option` as Lean `Option`.
-/

namespace FP

/-- Eq type class from 05-category.ts: one operation `equals(x, y) -> bool`. -/
structure Eq (A : Type) where
  equals : A → A → Bool

/-- Ord type class from 02-ord.ts: extends Eq with `compare(x, y)` returning
the TS `Ordering` values -1, 0 or 1, modelled as `Int`. -/
structure Ord (A : Type) extends Eq A where
  compare : A → A → Int

/-- fromCompare from 02-ord.ts (fp-ts helper used there): builds an Ord from a
compare function, deriving `equals(x, y) = (compare(x, y) === 0)` as the source
comment at 02-ord.ts lines 41-43 states. -/
def fromCompare {A : Type} (cmp : A → A → Int) : Ord A :=
  { equals := fun x y => cmp x y == 0, compare := cmp }

/-- ordNumber from 02-ord.ts line 50: `(x, y) => (x < y ? -1 : x > y ? 1 : 0)`. -/
def ordNumber : Ord Int :=
  fromCompare (fun x y => if x < y then -1 else if x > y then 1 else 0)

/-- min from 02-ord.ts lines 53-55: `(x, y) => (O.compare(x, y) === 1 ? y : x)`. -/
def min {A : Type} (O : Ord A) : A → A → A :=
  fun x y => if O.compare x y == 1 then y else x

/-- Modelled from the spec: `getDualOrd` (fp-ts, not under src/), §4.1:
`dualOrd(ord).compare(x, y) = -ord.compare(x, y)`. -/
def getDualOrd {A : Type} (O : Ord A) : Ord A :=
  fromCompare (fun x y => -(O.compare x y))

/-- max from 02-ord.ts lines 99-101: `min(getDualOrd(O))`. -/
def max {A : Type} (O : Ord A) : A → A → A :=
  min (getDualOrd O)

/-- Modelled from the spec: `contramap` for Ord (fp-ts, not under src/), §4.1:
lifts an ordering backward through a projection, used at 02-ord.ts line 82. -/
def contramapOrd {A B : Type} (f : B → A) (O : Ord A) : Ord B :=
  fromCompare (fun x y => O.compare (f x) (f y))

/-- User type from 02-ord.ts lines 67-70 (age field; names are strings). -/
structure User where
  name : String
  age : Int
  deriving DecidableEq

/-- byAge from 02-ord.ts line 82: `contramap(user => user.age)(ordNumber)`. -/
def byAge : Ord User :=
  contramapOrd (fun u => u.age) ordNumber

/-- Semigroup type class from 03-semigroup.ts lines 31-33. -/
structure Semigroup (A : Type) where
  concat : A → A → A

/-- Monoid type class from the monoid chapter: a Semigroup plus `empty`. -/
structure Monoid (A : Type) extends Semigroup A where
  empty : A

/-- semigroupSum from 03-semigroup.ts lines 64-66: number addition. -/
def semigroupSum : Semigroup Int :=
  { concat := fun x y => x + y }

/-- semigroupProduct from 03-semigroup.ts lines 57-59: number multiplication. -/
def semigroupProduct : Semigroup Int :=
  { concat := fun x y => x * y }

/-- semigroupString from 03-semigroup.ts lines 70-72: string concatenation. -/
def semigroupString : Semigroup String :=
  { concat := fun x y => x ++ y }

/-- monoidSum from the monoid chapter: addition with empty 0. -/
def monoidSum : Monoid Int :=
  { concat := fun x y => x + y, empty := 0 }

/-- S from unnamed/part_000 lines 15-17: the "concat with separator" semigroup
`concat: (x, y) => x + ' ' + y`. -/
def S : Semigroup String :=
  { concat := fun x y => x ++ " " ++ y }

/-- associativity from unnamed/part_000 line 24: the predicate
`S.concat(S.concat(x, y), z) === S.concat(x, S.concat(y, z))`. -/
def associativity (x y z : String) : Bool :=
  S.concat (S.concat x y) z == S.concat x (S.concat y z)

/-- Modelled from the spec: `getMeetSemigroup` (fp-ts, not under src/), §4.1:
returns the lesser of two values under ord; its combine is the same
`compare === 1 ? y : x` selection as min in 02-ord.ts. -/
def getMeetSemigroup {A : Type} (O : Ord A) : Semigroup A :=
  { concat := min O }

/-- Modelled from the spec: `getJoinSemigroup` (fp-ts, not under src/), §4.1:
returns the greater of two values under ord, i.e. min under the dual order,
the same selection as max in 02-ord.ts. -/
def getJoinSemigroup {A : Type} (O : Ord A) : Semigroup A :=
  { concat := max O }

/-- semigroupMin from 03-semigroup.ts line 112: `getMeetSemigroup(ordNumber)`. -/
def semigroupMin : Semigroup Int :=
  getMeetSemigroup ordNumber

/-- semigroupMax from 03-semigroup.ts line 115: `getJoinSemigroup(ordNumber)`. -/
def semigroupMax : Semigroup Int :=
  getJoinSemigroup ordNumber

/-- Point struct from 03-semigroup.ts lines 129-132. -/
structure Point where
  x : Int
  y : Int
  deriving DecidableEq

/-- semigroupPoint from 03-semigroup.ts lines 134-139: hand-written field-wise
sum of the x and y fields. -/
def semigroupPoint : Semigroup Point :=
  { concat := fun p1 p2 =>
      { x := semigroupSum.concat p1.x p2.x, y := semigroupSum.concat p1.y p2.y } }

/-- Modelled from the spec: `getStructSemigroup` (fp-ts, not under src/) at the
Point shape, §4.1: combine is field-wise under each field's instance. -/
def getStructSemigroupPoint (sx sy : Semigroup Int) : Semigroup Point :=
  { concat := fun p q => { x := sx.concat p.x q.x, y := sy.concat p.y q.y } }

/-- semigroupPointB from 03-semigroup.ts lines 153-156:
`getStructSemigroup({ x: semigroupSum, y: semigroupSum })`. -/
def semigroupPointB : Semigroup Point :=
  getStructSemigroupPoint semigroupSum semigroupSum

/-- Modelled from the spec: `getStructMonoid` (fp-ts, not under src/) at the
Point shape, §4.1: combine is field-wise; identity is the record of each
field's identity. -/
def getStructMonoidPoint (mx my : Monoid Int) : Monoid Point :=
  { concat := fun p q =>
      { x := mx.concat p.x q.x, y := my.concat p.y q.y }
    empty := { x := mx.empty, y := my.empty } }

/-- monoidPoint from 07-applicative.ts (monoid chapter) lines 240-243:
`getStructMonoid({ x: monoidSum, y: monoidSum })`. -/
def monoidPoint : Monoid Point :=
  getStructMonoidPoint monoidSum monoidSum

/-- eqNumber from 05-category.ts lines 146-148: `(x, y) => x === y`. -/
def eqNumber : Eq Int :=
  { equals := fun x y => x == y }

/-- eqPointManual from 05-category.ts lines 181-183:
`(p1, p2) => p1.x === p2.x && p1.y === p2.y`. -/
def eqPointManual : Eq Point :=
  { equals := fun p1 p2 => p1.x == p2.x && p1.y == p2.y }

/-- Modelled from the spec: `getStructEq` (fp-ts, not under src/) at the Point
shape, §4.1: equal iff every field is pairwise equal under its own instance. -/
def getStructEqPoint (ex ey : Eq Int) : Eq Point :=
  { equals := fun p q => ex.equals p.x q.x && ey.equals p.y q.y }

/-- eqPoint from 05-category.ts lines 193-196:
`getStructEq({ x: eqNumber, y: eqNumber })`. -/
def eqPoint : Eq Point :=
  getStructEqPoint eqNumber eqNumber

/-- flatten from fp-ts Array as used at 07-applicative.ts line 93:
concatenates a list of lists. -/
def flatten {A : Type} (xss : List (List A)) : List A :=
  xss.flatten

/-- The Applicative operations record (map, of, ap) of 07-applicative.ts,
instantiated per effect shape. -/
structure ApplicativeInst (F : Type → Type) where
  map : {A B : Type} → F A → (A → B) → F B
  of : {A : Type} → A → F A
  ap : {A B : Type} → F (A → B) → F A → F B

/-- applicativeArray from 07-applicative.ts lines 90-94:
map is Array.map, of builds a singleton, and
`ap(fab, fa) = flatten(fab.map(f => fa.map(f)))`. -/
def applicativeArray : ApplicativeInst List :=
  { map := fun fa f => fa.map f
    of := fun a => [a]
    ap := fun fab fa => flatten (fab.map (fun f => fa.map f)) }

/-- optionMap: the map of applicativeOption, 07-applicative.ts line 110:
`isNone(fa) ? none : some(f(fa.value))`. -/
def optionMap {A B : Type} (fa : Option A) (f : A → B) : Option B :=
  match fa with
  | none => none
  | some v => some (f v)

/-- applicativeOption from 07-applicative.ts lines 109-114:
`ap(fab, fa) = isNone(fab) ? none : map(fa, fab.value)`. -/
def applicativeOption : ApplicativeInst Option :=
  { map := fun fa f => optionMap fa f
    of := fun a => some a
    ap := fun fab fa =>
      match fab with
      | none => none
      | some f => optionMap fa f }

/-- liftA2 from 07-applicative.ts lines 144-148:
`(g) => (fb) => (fc) => F.ap(F.map(fb, g), fc)`. -/
def liftA2 {G : Type → Type} (F : ApplicativeInst G) {B C D : Type}
    (g : B → C → D) (fb : G B) (fc : G C) : G D :=
  F.ap (F.map fb g) fc

/-- Modelled from the spec: `getApplySemigroup` (fp-ts, not under src/), used
at 03-semigroup.ts line 414; per the truth table in its comment (lines 398-404)
it combines two Options pointwise through the Option applicative:
none if either side is none, some of the combined values otherwise. -/
def getApplySemigroup {A : Type} (Sg : Semigroup A) : Semigroup (Option A) :=
  { concat := fun x y =>
      applicativeOption.ap (applicativeOption.map x (fun a b => Sg.concat a b)) y }

/-- S_opt: the `S = getApplySemigroup(semigroupSum)` of 03-semigroup.ts line 414. -/
def S_opt : Semigroup (Option Int) :=
  getApplySemigroup semigroupSum

/-- Modelled from the spec: the Semigroup-variant fold (fp-ts, not under src/),
used at 03-semigroup.ts line 378-390, §4.1: left-to-right reduction using
combine, starting from the supplied initial value (Array.prototype.reduce). -/
def foldS {A : Type} (Sg : Semigroup A) (startWith : A) : List A → A
  | [] => startWith
  | a :: rest => foldS Sg (Sg.concat startWith a) rest

/-- Modelled from the spec: the Monoid-variant fold (fp-ts, not under src/),
used at 07-applicative.ts line 279, §4.1: no initial value is required, the
implementation uses the monoid's own identity for it. -/
def foldM {A : Type} (M : Monoid A) (as : List A) : A :=
  foldS M.toSemigroup M.empty as

/-- sum from 03-semigroup.ts line 380: `fold(semigroupSum)`. -/
def sum : Int → List Int → Int :=
  foldS semigroupSum

/-- Response type from specs/monoid.spec.ts lines 186-191 (second document):
url, status, headers and a parametrized body. Headers (a TS string record) are
modelled as an association list. -/
structure Response (A : Type) where
  url : String
  status : Int
  headers : List (String × String)
  body : A

/-- map for Response from specs/monoid.spec.ts lines 211-213:
`{ ...fa, body: f(fa.body) }`. -/
def mapResponse {A B : Type} (fa : Response A) (f : A → B) : Response B :=
  { fa with body := f fa.body }

/-- The Functor operations record of 06-functor (specs/monoid.spec.ts second
document). -/
structure FunctorInst (F : Type → Type) where
  map : {A B : Type} → F A → (A → B) → F B

/-- functorResponse from specs/monoid.spec.ts lines 216-219. -/
def functorResponse : FunctorInst Response :=
  { map := fun fa f => mapResponse fa f }

/-- The total-order laws an Ord instance must satisfy, from the comment block
of 02-ord.ts lines 30-43: compare only returns -1, 0 or 1; compare(x,y) = 0
exactly on equal values (antisymmetry together with the Eq compatibility);
compare(y,x) is the negation of compare(x,y) (totality of the order); and
transitivity of compare(x,y) <= 0. -/
structure LawfulTotalOrder {A : Type} (O : Ord A) : Prop where
  range : ∀ x y, O.compare x y = -1 ∨ O.compare x y = 0 ∨ O.compare x y = 1
  eq_of_compare : ∀ x y, O.compare x y = 0 → x = y
  compare_swap : ∀ x y, O.compare y x = -O.compare x y
  le_trans : ∀ x y z, O.compare x y ≤ 0 → O.compare y z ≤ 0 → O.compare x z ≤ 0

/-- Modelled from the spec: a concrete total-order instance on booleans
(fp-ts ordBoolean, false < true), used as a concrete input for the meet/join
law theorems. -/
def ordBoolean : Ord Bool :=
  fromCompare (fun x y =>
    match x, y with
    | false, true => -1
    | true, false => 1
    | _, _ => 0)

/-- Modelled from the spec: the run result of the property engine, §3 and §4.4:
pass, or fail carrying the counterexample and the seed that reproduces it.
Shrinking is omitted: the reproducibility claim concerns the pre-shrink
failing draw. -/
inductive RunResult (A : Type) where
  | Passed
  | Failed (counterexample : A) (seed : Nat)
  deriving DecidableEq

/-- Modelled from the spec: the seed progression of the owned, seedable
pseudo-random generator, §4.3 and §9: a deterministic (linear-congruential,
not cryptographic) step from one iteration's integer seed to the next. -/
def seedStep (s : Nat) : Nat :=
  (s * 1103515245 + 12345) % 2 ^ 31

/-- Modelled from the spec: the property engine run, §4.4: each iteration
draws the value determined by the current seed (the draw is a pure function
of the seed, §4.3 determinism), evaluates the predicate, transitions to
Failed on the first false result — reporting the failing draw and the seed of
that iteration — and to Passed when the iteration budget is exhausted. -/
def runProperty {A : Type} (gen : Nat → A) (pred : A → Bool) : Nat → Nat → RunResult A
  | _, 0 => RunResult.Passed
  | s, n + 1 =>
    if pred (gen s) then runProperty gen pred (seedStep s) n
    else RunResult.Failed (gen s) s

end FP

namespace FP

/-- Claim C1 counterexample: at the triple x="a", y="b", z="c" named by the
claim, `concat(concat(x, y), z)` and `concat(x, concat(y, z))` do NOT differ —
both sides are "a b c" — and the associativity predicate of part_000 accepts
this triple, contradicting the claim that it gives two differing results. -/
theorem C1_counterexample :
    S.concat (S.concat "a" "b") "c" = S.concat "a" (S.concat "b" "c")
    ∧ associativity "a" "b" "c" = true := by
  constructor
  · rfl
  · rfl

/-- Claim C1 (amended): for the string operation combine(x,y) = x + " " + y,
there is NO triple (x,y,z) for which concat(concat(x,y),z) differs from
concat(x,concat(y,z)): the operation is associative for all strings, so the
associativity property accepts every triple, in particular ("a","b","c"). -/
theorem C1_concat_separator_is_associative (x y z : String) :
    S.concat (S.concat x y) z = S.concat x (S.concat y z)
    ∧ associativity x y z = true := by
  have h : S.concat (S.concat x y) z = S.concat x (S.concat y z) := by
    apply String.ext
    simp [S, String.data_append, List.append_assoc]
  exact ⟨h, by simp [associativity, h]⟩

/-- Claim C2: the struct monoid over {x, y} with the number-addition instance
for each field sends ({x:10,y:15}, {x:3,y:5}) to {x:13,y:20}; its identity is
{x:0,y:0} and combining either operand with it, in either order, returns that
operand unchanged.  The hand-written semigroupPoint and the derived
semigroupPointB compute the same combination. -/
theorem C2_structMonoidPoint_concrete :
    monoidPoint.concat ⟨10, 15⟩ ⟨3, 5⟩ = ⟨13, 20⟩
    ∧ monoidPoint.empty = ⟨0, 0⟩
    ∧ monoidPoint.concat ⟨10, 15⟩ ⟨0, 0⟩ = ⟨10, 15⟩
    ∧ monoidPoint.concat ⟨0, 0⟩ ⟨10, 15⟩ = ⟨10, 15⟩
    ∧ monoidPoint.concat ⟨3, 5⟩ ⟨0, 0⟩ = ⟨3, 5⟩
    ∧ monoidPoint.concat ⟨0, 0⟩ ⟨3, 5⟩ = ⟨3, 5⟩
    ∧ semigroupPoint.concat ⟨10, 15⟩ ⟨3, 5⟩ = ⟨13, 20⟩
    ∧ semigroupPointB.concat ⟨10, 15⟩ ⟨3, 5⟩ = ⟨13, 20⟩ := by
  decide

lemma ap_array_length {A B : Type} (fab : List (A → B)) (fa : List A) :
    (applicativeArray.ap fab fa).length = fab.length * fa.length := by
  induction fab with
  | nil => simp [applicativeArray, flatten]
  | cons f rest ih =>
    simp only [applicativeArray, flatten, List.map_cons, List.flatten_cons,
      List.length_append, List.length_map, List.length_cons] at *
    rw [ih, Nat.succ_mul]
    omega

/-- Claim C4: for the array applicative, ap applied to an N-element list of
functions and an M-element list of arguments yields exactly N*M elements;
liftA2 built from map and ap does the same; and an empty array on either side
yields an empty array, not an error. -/
theorem C4_array_ap_cartesian {A B : Type} (fab : List (A → B)) (fa : List A) :
    (applicativeArray.ap fab fa).length = fab.length * fa.length
    ∧ (∀ {C D : Type} (g : A → C → D) (fc : List C),
        (liftA2 applicativeArray g fa fc).length = fa.length * fc.length)
    ∧ applicativeArray.ap ([] : List (A → B)) fa = []
    ∧ applicativeArray.ap fab ([] : List A) = [] := by
  refine ⟨ap_array_length fab fa, ?_, rfl, ?_⟩
  · intro C D g fc
    have h := ap_array_length (applicativeArray.map fa g) fc
    simpa [liftA2, applicativeArray] using h
  · have h := ap_array_length fab ([] : List A)
    simp only [List.length_nil, Nat.mul_zero] at h
    exact List.length_eq_zero.mp h

/-- Claim C5: for the Option applicative and the Option semigroup derived via
getApplySemigroup, the result is none if and only if at least one operand is
none; when both operands are present it is some of the applied/combined
value. -/
theorem C5_option_absence {A B C : Type} (Sg : Semigroup C) :
    (∀ (fab : Option (A → B)) (fa : Option A),
        applicativeOption.ap fab fa = none ↔ fab = none ∨ fa = none)
    ∧ (∀ (f : A → B) (a : A), applicativeOption.ap (some f) (some a) = some (f a))
    ∧ (∀ (x y : Option C),
        (getApplySemigroup Sg).concat x y = none ↔ x = none ∨ y = none)
    ∧ (∀ (a b : C),
        (getApplySemigroup Sg).concat (some a) (some b) = some (Sg.concat a b)) := by
  refine ⟨?_, ?_, ?_, ?_⟩
  · intro fab fa
    cases fab <;> cases fa <;> simp [applicativeOption, optionMap]
  · intro f a
    rfl
  · intro x y
    cases x <;> cases y <;> simp [getApplySemigroup, applicativeOption, optionMap]
  · intro a b
    rfl

lemma foldS_eq_foldl {A : Type} (Sg : Semigroup A) (xs : List A) :
    ∀ init : A, foldS Sg init xs = xs.foldl Sg.concat init := by
  induction xs with
  | nil => intro init; rfl
  | cons a rest ih => intro init; simpa [foldS, List.foldl] using ih (Sg.concat init a)

/-- Claim C6: for every monoid M and list xs, the Monoid fold of xs (which
takes no initial value) equals the Semigroup fold of xs started from M's
identity, and both equal the left-to-right reduction of xs by M's combine;
folding [1,2,3,4] under the addition monoid yields 10, as does the
src sum = fold(semigroupSum) started from 0. -/
theorem C6_fold_monoid_refines_semigroup {A : Type} (M : Monoid A) (xs : List A) :
    foldM M xs = foldS M.toSemigroup M.empty xs
    ∧ (∀ (Sg : Semigroup A) (init : A), foldS Sg init xs = xs.foldl Sg.concat init)
    ∧ foldM M xs = xs.foldl M.concat M.empty
    ∧ foldM monoidSum [1, 2, 3, 4] = 10
    ∧ sum 0 [1, 2, 3, 4] = 10 := by
  refine ⟨rfl, fun Sg init => foldS_eq_foldl Sg xs init, ?_, by decide, by decide⟩
  exact foldS_eq_foldl M.toSemigroup xs M.empty

/-- Claim C7: the struct-derived eqPoint equals is true iff every field is
pairwise equal under its field instance (p.x = q.x and p.y = q.y), and it
coincides with the hand-written eqPointManual. -/
theorem C7_eqPoint_fieldwise (p q : Point) :
    (eqPoint.equals p q = true ↔ p.x = q.x ∧ p.y = q.y)
    ∧ eqPoint.equals p q = eqPointManual.equals p q := by
  constructor
  · simp [eqPoint, getStructEqPoint, eqNumber]
  · rfl

/-- Claim C9: functorResponse.map changes only the body field, setting it to
f(fa.body); the url, status and headers of the result are identical to those
of the input. -/
theorem C9_functorResponse_map_frame {A B : Type} (fa : Response A) (f : A → B) :
    (functorResponse.map fa f).url = fa.url
    ∧ (functorResponse.map fa f).status = fa.status
    ∧ (functorResponse.map fa f).headers = fa.headers
    ∧ (functorResponse.map fa f).body = f fa.body := by
  exact ⟨rfl, rfl, rfl, rfl⟩

@[simp]
lemma getDualOrd_compare {A : Type} (O : Ord A) (x y : A) :
    (getDualOrd O).compare x y = -(O.compare x y) :=
  rfl

lemma compare_refl {A : Type} (O : Ord A) (h : LawfulTotalOrder O) (x : A) :
    O.compare x x = 0 := by
  have := h.compare_swap x x
  omega

lemma min_eq_ite {A : Type} (O : Ord A) (h : LawfulTotalOrder O) (x y : A) :
    min O x y = if O.compare x y ≤ 0 then x else y := by
  unfold min
  rcases h.range x y with hc | hc | hc <;> simp [hc]

lemma min_eq_left {A : Type} (O : Ord A) (h : LawfulTotalOrder O) {x y : A}
    (hxy : O.compare x y ≤ 0) : min O x y = x := by
  rw [min_eq_ite O h]
  exact if_pos hxy

lemma min_eq_right {A : Type} (O : Ord A) (h : LawfulTotalOrder O) {x y : A}
    (hxy : ¬O.compare x y ≤ 0) : min O x y = y := by
  rw [min_eq_ite O h]
  exact if_neg hxy

lemma le_total_compare {A : Type} (O : Ord A) (h : LawfulTotalOrder O) (x y : A) :
    O.compare x y ≤ 0 ∨ O.compare y x ≤ 0 := by
  have hs := h.compare_swap x y
  rcases h.range x y with hc | hc | hc <;> omega

lemma le_antisym_compare {A : Type} (O : Ord A) (h : LawfulTotalOrder O) {x y : A}
    (h1 : O.compare x y ≤ 0) (h2 : O.compare y x ≤ 0) : x = y := by
  have hs := h.compare_swap x y
  exact h.eq_of_compare x y (by omega)

lemma min_assoc {A : Type} (O : Ord A) (h : LawfulTotalOrder O) (x y z : A) :
    min O (min O x y) z = min O x (min O y z) := by
  by_cases h1 : O.compare x y ≤ 0
  · by_cases h2 : O.compare y z ≤ 0
    · have h3 : O.compare x z ≤ 0 := h.le_trans x y z h1 h2
      rw [min_eq_left O h h1, min_eq_left O h h2, min_eq_left O h h3,
        min_eq_left O h h1]
    · rw [min_eq_left O h h1, min_eq_right O h h2]
  · by_cases h2 : O.compare y z ≤ 0
    · rw [min_eq_right O h h1, min_eq_left O h h2, min_eq_right O h h1]
    · rw [min_eq_right O h h1, min_eq_right O h h2]
      have h3 : ¬O.compare x z ≤ 0 := by
        intro hxz
        have hyx : O.compare y x ≤ 0 := by
          have := h.compare_swap x y
          omega
        exact h2 (h.le_trans y x z hyx hxz)
      rw [min_eq_right O h h3]

lemma min_comm {A : Type} (O : Ord A) (h : LawfulTotalOrder O) (x y : A) :
    min O x y = min O y x := by
  by_cases h1 : O.compare x y ≤ 0
  · by_cases h2 : O.compare y x ≤ 0
    · rw [min_eq_left O h h1, min_eq_left O h h2]
      exact le_antisym_compare O h h1 h2
    · rw [min_eq_left O h h1, min_eq_right O h h2]
  · have h2 : O.compare y x ≤ 0 := by
      rcases le_total_compare O h x y with hh | hh
      · exact absurd hh h1
      · exact hh
    rw [min_eq_right O h h1, min_eq_left O h h2]

lemma min_idem {A : Type} (O : Ord A) (h : LawfulTotalOrder O) (x : A) :
    min O x x = x := by
  have hxx : O.compare x x ≤ 0 := by
    have := compare_refl O h x
    omega
  exact min_eq_left O h hxx

lemma min_is_lesser {A : Type} (O : Ord A) (h : LawfulTotalOrder O) (x y : A) :
    (min O x y = x ∨ min O x y = y)
    ∧ O.compare (min O x y) x ≤ 0 ∧ O.compare (min O x y) y ≤ 0 := by
  by_cases h1 : O.compare x y ≤ 0
  · rw [min_eq_left O h h1]
    refine ⟨Or.inl rfl, ?_, h1⟩
    have := compare_refl O h x
    omega
  · have h2 : O.compare y x ≤ 0 := by
      rcases le_total_compare O h x y with hh | hh
      · exact absurd hh h1
      · exact hh
    rw [min_eq_right O h h1]
    refine ⟨Or.inr rfl, h2, ?_⟩
    have := compare_refl O h y
    omega

lemma dual_lawful {A : Type} (O : Ord A) (h : LawfulTotalOrder O) :
    LawfulTotalOrder (getDualOrd O) := by
  constructor
  · intro x y
    simp only [getDualOrd_compare]
    rcases h.range x y with hc | hc | hc <;> omega
  · intro x y hxy
    simp only [getDualOrd_compare] at hxy
    exact h.eq_of_compare x y (by omega)
  · intro x y
    simp only [getDualOrd_compare]
    have := h.compare_swap x y
    omega
  · intro x y z h1 h2
    simp only [getDualOrd_compare] at h1 h2 ⊢
    have hzy : O.compare z y ≤ 0 := by
      have := h.compare_swap y z
      omega
    have hyx : O.compare y x ≤ 0 := by
      have := h.compare_swap x y
      omega
    have hzx := h.le_trans z y x hzy hyx
    have := h.compare_swap x z
    omega

/-- Claim C3: for every lawful total order, the meet (minimum-taking) and join
(maximum-taking) semigroups derived from it are associative, commutative and
idempotent, and meet's combine returns the lesser of its two arguments under
the order (it is one of them and compares <= 0 against both) while join's
returns the greater. -/
theorem C3_meet_join_semigroups {A : Type} (O : Ord A) (h : LawfulTotalOrder O) :
    (∀ x y z, (getMeetSemigroup O).concat ((getMeetSemigroup O).concat x y) z
        = (getMeetSemigroup O).concat x ((getMeetSemigroup O).concat y z))
    ∧ (∀ x y, (getMeetSemigroup O).concat x y = (getMeetSemigroup O).concat y x)
    ∧ (∀ x, (getMeetSemigroup O).concat x x = x)
    ∧ (∀ x y z, (getJoinSemigroup O).concat ((getJoinSemigroup O).concat x y) z
        = (getJoinSemigroup O).concat x ((getJoinSemigroup O).concat y z))
    ∧ (∀ x y, (getJoinSemigroup O).concat x y = (getJoinSemigroup O).concat y x)
    ∧ (∀ x, (getJoinSemigroup O).concat x x = x)
    ∧ (∀ x y, ((getMeetSemigroup O).concat x y = x ∨ (getMeetSemigroup O).concat x y = y)
        ∧ O.compare ((getMeetSemigroup O).concat x y) x ≤ 0
        ∧ O.compare ((getMeetSemigroup O).concat x y) y ≤ 0)
    ∧ (∀ x y, ((getJoinSemigroup O).concat x y = x ∨ (getJoinSemigroup O).concat x y = y)
        ∧ 0 ≤ O.compare ((getJoinSemigroup O).concat x y) x
        ∧ 0 ≤ O.compare ((getJoinSemigroup O).concat x y) y) := by
  have hd := dual_lawful O h
  refine ⟨fun x y z => min_assoc O h x y z,
    fun x y => min_comm O h x y,
    fun x => min_idem O h x,
    fun x y z => min_assoc (getDualOrd O) hd x y z,
    fun x y => min_comm (getDualOrd O) hd x y,
    fun x => min_idem (getDualOrd O) hd x,
    fun x y => min_is_lesser O h x y,
    fun x y => ?_⟩
  obtain ⟨ho, hl1, hl2⟩ := min_is_lesser (getDualOrd O) hd x y
  simp only [getDualOrd_compare] at hl1 hl2
  have hj : (getJoinSemigroup O).concat x y = min (getDualOrd O) x y := rfl
  rw [hj]
  exact ⟨ho, by omega, by omega⟩

/-- Claim C3 witness: concrete meet/join law instances for the boolean total
order, obtained from the general theorem. -/
theorem C3_meet_join_semigroups_witness :
    (getMeetSemigroup ordBoolean).concat
        ((getMeetSemigroup ordBoolean).concat true false) true
      = (getMeetSemigroup ordBoolean).concat true
        ((getMeetSemigroup ordBoolean).concat false true)
    ∧ (getMeetSemigroup ordBoolean).concat true true = true
    ∧ (getJoinSemigroup ordBoolean).concat true false
      = (getJoinSemigroup ordBoolean).concat false true
    ∧ (getJoinSemigroup ordBoolean).concat false false = false := by
  have h := C3_meet_join_semigroups ordBoolean
    ⟨by decide, by decide, by decide, by decide⟩
  exact ⟨h.1 true false true, h.2.2.1 true, h.2.2.2.2.1 true false,
    h.2.2.2.2.2.1 false⟩

/-- Claim C8: when a property run fails, the reported seed deterministically
reproduces the failure: the reported counterexample is exactly the value the
generator draws from the reported seed, the predicate rejects that draw, and
re-running the engine from the reported seed (with any positive budget)
fails on its first iteration with the same counterexample and seed. -/
theorem C8_seed_replay {A : Type} (gen : Nat → A) (pred : A → Bool)
    (s n : Nat) (cx : A) (s' : Nat)
    (hrun : runProperty gen pred s n = RunResult.Failed cx s') :
    cx = gen s' ∧ pred (gen s') = false
    ∧ ∀ m : Nat, runProperty gen pred s' (m + 1) = RunResult.Failed cx s' := by
  induction n generalizing s with
  | zero => simp [runProperty] at hrun
  | succ n ih =>
    by_cases hp : pred (gen s) = true
    · have hstep : runProperty gen pred s (n + 1)
          = runProperty gen pred (seedStep s) n := by
        simp [runProperty, hp]
      rw [hstep] at hrun
      exact ih (seedStep s) hrun
    · have hp' : pred (gen s) = false := by
        revert hp
        cases pred (gen s) <;> simp
      have hstep : runProperty gen pred s (n + 1) = RunResult.Failed (gen s) s := by
        simp [runProperty, hp']
      rw [hstep] at hrun
      rw [RunResult.Failed.injEq] at hrun
      obtain ⟨h1, h2⟩ := hrun
      subst h2
      refine ⟨h1.symm, hp', ?_⟩
      intro m
      have : runProperty gen pred s (m + 1) = RunResult.Failed (gen s) s := by
        simp [runProperty, hp']
      rw [this, RunResult.Failed.injEq]
      exact ⟨h1, rfl⟩

/-- Claim C8 witness: a concrete failing run (identity generator, odd-number
predicate, seed 1, budget 5) whose reported seed, re-run with budget 1,
fails on the first iteration with the same counterexample. -/
theorem C8_seed_replay_witness :
    runProperty (fun s => s) (fun v => v % 2 == 1) 1 5
      = RunResult.Failed 1103527590 1103527590
    ∧ runProperty (fun s => s) (fun v => v % 2 == 1) 1103527590 1
      = RunResult.Failed 1103527590 1103527590 := by
  refine ⟨by decide, ?_⟩
  exact (C8_seed_replay (fun s => s) (fun v => v % 2 == 1) 1 5 1103527590
    1103527590 (by decide)).2.2 0

/-- Claim C10: when compare(x, y) = 0, both min(O)(x, y) and max(O)(x, y)
return the first argument x: ties are resolved in favour of the left
operand. -/
theorem C10_min_max_tie_left {A : Type} (O : Ord A) (x y : A)
    (h : O.compare x y = 0) :
    min O x y = x ∧ max O x y = x := by
  constructor
  · unfold min
    simp [h]
  · unfold max min
    simp [h]

/-- Claim C10 witness: two users with equal ages under the byAge ordering;
min and max both return the left operand. -/
theorem C10_min_max_tie_left_witness :
    byAge.compare ⟨"Dimebag", 34⟩ ⟨"Mercury", 34⟩ = 0
    ∧ (min byAge ⟨"Dimebag", 34⟩ ⟨"Mercury", 34⟩ = ⟨"Dimebag", 34⟩
       ∧ max byAge ⟨"Dimebag", 34⟩ ⟨"Mercury", 34⟩ = ⟨"Dimebag", 34⟩) :=
  ⟨by decide, C10_min_max_tie_left byAge ⟨"Dimebag", 34⟩ ⟨"Mercury", 34⟩ (by decide)⟩

end FP
